import Mathlib

/-!
Verification of the AirVision computational core (app.py): the health
advisory threshold table, forecast calibration, source-bucket attribution
and the policy impact simulator, shallowly embedded over the rationals.
-/

namespace AirVision

/-- The six-tier health advisory lookup table from `health_advisory` in
app.py: a 5-tuple (status, advice, mask guidance, outdoor guidance, color). -/
def health_advisory (aqi : ℚ) : String × String × String × String × String :=
  if aqi ≤ 50 then ("Good 🌱", "Ideal air quality", "No mask needed", "Perfect for outdoor activities", "#14c38e")
  else if aqi ≤ 100 then ("Satisfactory 🙂", "Minor breathing discomfort", "Mask optional", "Ideal for morning/evening", "#e3c84e")
  else if aqi ≤ 200 then ("Moderate 😐", "Breathing discomfort", "Light mask recommended", "Avoid prolonged exposure", "#f5a742")
  else if aqi ≤ 300 then ("Poor 😷", "Respiratory illness possible", "N95 mask essential", "Limit outdoor activities", "#ef5b5b")
  else if aqi ≤ 400 then ("Very Poor 😵", "Health impacts likely", "Strict N95 protection", "Minimize outdoor time", "#8f6bf6")
  else ("Severe ☠️", "Health emergency", "Stay indoors with purifier", "Avoid all outdoor activities", "#ff0000")

/-- The tier returned for indices at most 50. -/
def goodTier : String × String × String × String × String :=
  ("Good 🌱", "Ideal air quality", "No mask needed", "Perfect for outdoor activities", "#14c38e")

/-- The tier returned for indices in (50, 100]. -/
def satisfactoryTier : String × String × String × String × String :=
  ("Satisfactory 🙂", "Minor breathing discomfort", "Mask optional", "Ideal for morning/evening", "#e3c84e")

/-- The tier returned for indices in (100, 200]. -/
def moderateTier : String × String × String × String × String :=
  ("Moderate 😐", "Breathing discomfort", "Light mask recommended", "Avoid prolonged exposure", "#f5a742")

/-- The tier returned for indices in (200, 300]. -/
def poorTier : String × String × String × String × String :=
  ("Poor 😷", "Respiratory illness possible", "N95 mask essential", "Limit outdoor activities", "#ef5b5b")

/-- The tier returned for indices in (300, 400]. -/
def veryPoorTier : String × String × String × String × String :=
  ("Very Poor 😵", "Health impacts likely", "Strict N95 protection", "Minimize outdoor time", "#8f6bf6")

/-- The terminal tier returned for indices above 400. -/
def severeTier : String × String × String × String × String :=
  ("Severe ☠️", "Health emergency", "Stay indoors with purifier", "Avoid all outdoor activities", "#ff0000")

/-- `calibrated_forecast` from app.py, on the raw forecast the opaque model
produced: if the live index is absent or the raw forecast is empty the raw
forecast is returned unchanged; otherwise every entry is shifted by
`live - base[0]`. -/
def calibrated_forecast (liveAqi : Option ℚ) (base : List ℚ) : List ℚ :=
  match liveAqi, base with
  | none, bs => bs
  | some _, [] => []
  | some l, b0 :: bs => (b0 :: bs).map (fun v => v + (l - b0))

/-- The fixed pollutant feature order from app.py. -/
def features : List String := ["PM2.5", "PM10", "NO2", "SO2", "CO", "O3"]

/-- Dictionary lookup with default 0, as `m.get(key, 0)` in app.py. -/
def mget (m : List (String × ℚ)) (k : String) : ℚ :=
  match m.lookup k with
  | some v => v
  | none => 0

/-- `source_buckets` from app.py, on the importance vector of the opaque
model: the four fixed bucket sums are normalized by their total (with 1
substituted when the total is 0, as the Python `or 1.0`) and scaled to
percentages. -/
def source_buckets (importance : List ℚ) : List (String × ℚ) :=
  let m := features.zip importance
  let buckets : List (String × ℚ) :=
    [("Traffic (NO₂ + CO)", mget m "NO2" + mget m "CO"),
     ("Dust & Stubble (PM2.5 + PM10)", mget m "PM2.5" + mget m "PM10"),
     ("Industry (SO₂)", mget m "SO2"),
     ("Photochemical (O₃)", mget m "O3")]
  let total : ℚ := if (buckets.map Prod.snd).sum = 0 then 1 else (buckets.map Prod.snd).sum
  buckets.map (fun kv => (kv.1, kv.2 / total * 100))

/-- The blended effectiveness computed inline on the Sources & Policy page of
app.py: each bucket percentage is turned into a weight fraction and combined
with the corresponding lever reduction fraction. -/
def policy_eff (buckets : List (String × ℚ)) (t d i p : ℚ) : ℚ :=
  (mget buckets "Traffic (NO₂ + CO)" / 100) * (t / 100) +
  (mget buckets "Dust & Stubble (PM2.5 + PM10)" / 100) * (d / 100) +
  (mget buckets "Industry (SO₂)" / 100) * (i / 100) +
  (mget buckets "Photochemical (O₃)" / 100) * (p / 100)

/-- The baseline selection of the policy simulator in app.py: the live index
when present, otherwise the fixed default 200. -/
def policy_baseline (live : Option ℚ) : ℚ :=
  match live with
  | some l => l
  | none => 200

/-- The projected index `improved = baseline * (1 - eff)` from app.py. -/
def policy_improved (buckets : List (String × ℚ)) (t d i p : ℚ) (live : Option ℚ) : ℚ :=
  policy_baseline live * (1 - policy_eff buckets t d i p)

/-- `aqi_hex` from the Live Map page of app.py: an independent hard-coded
threshold-to-color table. -/
def aqi_hex (aqi : ℚ) : String :=
  if aqi ≤ 50 then "#14c38e"
  else if aqi ≤ 100 then "#e3c84e"
  else if aqi ≤ 200 then "#f5a742"
  else if aqi ≤ 300 then "#ef5b5b"
  else if aqi ≤ 400 then "#8f6bf6"
  else "#ff0000"

/-- Consecutive differences of a sequence, used to state that calibration
preserves the shape (relative deltas) of the raw forecast. -/
def diffs (xs : List ℚ) : List ℚ :=
  List.zipWith (fun a b => b - a) xs xs.tail

/-- The bucket-percentage dictionary shape consumed by the policy simulator
in app.py: the four fixed bucket keys paired with their percentage values,
in the insertion order of `source_buckets`. -/
def bucketList (wT wD wI wP : ℚ) : List (String × ℚ) :=
  [("Traffic (NO₂ + CO)", wT),
   ("Dust & Stubble (PM2.5 + PM10)", wD),
   ("Industry (SO₂)", wI),
   ("Photochemical (O₃)", wP)]

/-- Unfolding the six pollutant lookups of `source_buckets` on a concrete
six-entry importance vector. -/
theorem mget_features_zip (a b c d e f : ℚ) :
    mget (features.zip [a, b, c, d, e, f]) "PM2.5" = a ∧
    mget (features.zip [a, b, c, d, e, f]) "PM10" = b ∧
    mget (features.zip [a, b, c, d, e, f]) "NO2" = c ∧
    mget (features.zip [a, b, c, d, e, f]) "SO2" = d ∧
    mget (features.zip [a, b, c, d, e, f]) "CO" = e ∧
    mget (features.zip [a, b, c, d, e, f]) "O3" = f :=
  ⟨rfl, rfl, rfl, rfl, rfl, rfl⟩

/-- Evaluation of `source_buckets` on a six-entry importance vector whose
total is nonzero. -/
theorem source_buckets_eval (a b c d e f : ℚ) (h : a + b + c + d + e + f ≠ 0) :
    source_buckets [a, b, c, d, e, f] =
      [("Traffic (NO₂ + CO)", (c + e) / (a + b + c + d + e + f) * 100),
       ("Dust & Stubble (PM2.5 + PM10)", (a + b) / (a + b + c + d + e + f) * 100),
       ("Industry (SO₂)", d / (a + b + c + d + e + f) * 100),
       ("Photochemical (O₃)", f / (a + b + c + d + e + f) * 100)] := by
  obtain ⟨h1, h2, h3, h4, h5, h6⟩ := mget_features_zip a b c d e f
  simp only [source_buckets, h1, h2, h3, h4, h5, h6, List.map_cons, List.map_nil,
    List.sum_cons, List.sum_nil]
  rw [show c + e + (a + b + (d + (f + 0))) = a + b + c + d + e + f by ring]
  rw [if_neg h]

/-- Evaluation of `source_buckets` on the all-zero importance vector: the
Python `or 1.0` substitutes 1 for the total and every percentage is 0. -/
theorem source_buckets_zero :
    source_buckets [0, 0, 0, 0, 0, 0] =
      [("Traffic (NO₂ + CO)", 0),
       ("Dust & Stubble (PM2.5 + PM10)", 0),
       ("Industry (SO₂)", 0),
       ("Photochemical (O₃)", 0)] := by
  obtain ⟨h1, h2, h3, h4, h5, h6⟩ := mget_features_zip 0 0 0 0 0 (0 : ℚ)
  simp only [source_buckets, h1, h2, h3, h4, h5, h6, List.map_cons, List.map_nil,
    List.sum_cons, List.sum_nil]
  norm_num

/-- Unfolding the four bucket lookups of the policy effectiveness formula. -/
theorem policy_eff_bucketList (wT wD wI wP t d i p : ℚ) :
    policy_eff (bucketList wT wD wI wP) t d i p =
      wT / 100 * (t / 100) + wD / 100 * (d / 100) +
        wI / 100 * (i / 100) + wP / 100 * (p / 100) :=
  rfl

/-- Consecutive differences are invariant under a uniform additive shift. -/
theorem diffs_map_add (c : ℚ) : ∀ xs : List ℚ, diffs (xs.map (fun v => v + c)) = diffs xs
  | [] => rfl
  | [_] => rfl
  | x :: y :: ys => by
      simp only [List.map_cons]
      rw [show diffs ((x + c) :: (y + c) :: ys.map (fun v => v + c)) =
            ((y + c) - (x + c)) :: diffs ((y + c) :: ys.map (fun v => v + c)) from rfl]
      rw [show diffs (x :: y :: ys) = (y - x) :: diffs (y :: ys) from rfl]
      have ih := diffs_map_add c (y :: ys)
      simp only [List.map_cons] at ih
      rw [ih]
      congr 1
      ring

/-- Claim C6: the forecast calibration is the identity in both degenerate
cases: an absent live index returns the raw forecast unchanged, and an empty
raw forecast is returned as the empty sequence. -/
theorem c6_calibrate_degenerate_identity :
    (∀ base : List ℚ, calibrated_forecast none base = base) ∧
    (∀ l : ℚ, calibrated_forecast (some l) [] = []) :=
  ⟨fun _ => rfl, fun _ => rfl⟩

/-- Claim C9: when the live index is absent the policy simulator falls back
to the fixed default baseline 200: for every bucket and lever input the
projected index equals the one computed with baseline 200. -/
theorem c9_absent_live_defaults_to_200 :
    ∀ (buckets : List (String × ℚ)) (t d i p : ℚ),
      policy_improved buckets t d i p none =
        policy_improved buckets t d i p (some 200) :=
  fun _ _ _ _ _ => rfl

/-- Claim C8: with all four levers at 0 the projected index is exactly the
baseline, for every bucket-percentage list whatsoever. -/
theorem c8_zero_levers_identity :
    ∀ (buckets : List (String × ℚ)) (baseline : ℚ),
      policy_improved buckets 0 0 0 0 (some baseline) = baseline := by
  intro buckets baseline
  simp [policy_improved, policy_eff, policy_baseline]

/-- Claim C10: the Live Map page's independent color table `aqi_hex` agrees
with the color component (fifth element) of `health_advisory` at every
index: the two hard-coded threshold tables are equivalent. -/
theorem c10_aqi_hex_agrees_with_advisory :
    ∀ aqi : ℚ, aqi_hex aqi = (health_advisory aqi).2.2.2.2 := by
  intro aqi
  unfold aqi_hex health_advisory
  split_ifs <;> rfl

/-- Claim C1: `health_advisory` is total and deterministic: every rational
index lands in exactly one of the six fixed tiers, chosen by the half-open
intervals with closed upper bounds 50, 100, 200, 300, 400, and everything
above 400 gets the terminal Severe tier. -/
theorem c1_classify_partition (aqi : ℚ) :
    (health_advisory aqi = goodTier ↔ aqi ≤ 50) ∧
    (health_advisory aqi = satisfactoryTier ↔ 50 < aqi ∧ aqi ≤ 100) ∧
    (health_advisory aqi = moderateTier ↔ 100 < aqi ∧ aqi ≤ 200) ∧
    (health_advisory aqi = poorTier ↔ 200 < aqi ∧ aqi ≤ 300) ∧
    (health_advisory aqi = veryPoorTier ↔ 300 < aqi ∧ aqi ≤ 400) ∧
    (health_advisory aqi = severeTier ↔ 400 < aqi) := by
  unfold health_advisory goodTier satisfactoryTier moderateTier poorTier veryPoorTier severeTier
  split_ifs with h1 h2 h3 h4 h5 <;>
    refine ⟨?_, ?_, ?_, ?_, ?_, ?_⟩ <;> simp_all <;> (try intro h) <;> linarith

/-- Claim C2: on a non-empty raw forecast and a present live index the
calibration returns the raw sequence shifted by `live - base[0]`: the length
is preserved, the first output equals the live index, and the consecutive
differences of the raw sequence are preserved unchanged. -/
theorem c2_calibrate_uniform_shift (l b0 : ℚ) (bs : List ℚ) :
    calibrated_forecast (some l) (b0 :: bs) =
        (b0 :: bs).map (fun v => v + (l - b0)) ∧
    (calibrated_forecast (some l) (b0 :: bs)).length = (b0 :: bs).length ∧
    (calibrated_forecast (some l) (b0 :: bs)).head? = some l ∧
    diffs (calibrated_forecast (some l) (b0 :: bs)) = diffs (b0 :: bs) := by
  refine ⟨rfl, by simp [calibrated_forecast], ?_, ?_⟩
  · show some (b0 + (l - b0)) = some l
    congr 1
    ring
  · show diffs ((b0 :: bs).map (fun v => v + (l - b0))) = diffs (b0 :: bs)
    exact diffs_map_add _ _

/-- Claim C3: on a non-negative importance vector the attribution returns
four non-negative percentages; with a positive total they sum to exactly
100, and on the all-zero vector the result is all-zero with no division by
zero. -/
theorem c3_attribution_invariants (a b c d e f : ℚ)
    (ha : 0 ≤ a) (hb : 0 ≤ b) (hc : 0 ≤ c) (hd : 0 ≤ d) (he : 0 ≤ e) (hf : 0 ≤ f) :
    (source_buckets [a, b, c, d, e, f]).length = 4 ∧
    (∀ x ∈ (source_buckets [a, b, c, d, e, f]).map Prod.snd, 0 ≤ x) ∧
    (0 < a + b + c + d + e + f →
      ((source_buckets [a, b, c, d, e, f]).map Prod.snd).sum = 100) ∧
    ((a = 0 ∧ b = 0 ∧ c = 0 ∧ d = 0 ∧ e = 0 ∧ f = 0) →
      (source_buckets [a, b, c, d, e, f]).map Prod.snd = [0, 0, 0, 0]) := by
  refine ⟨?_, ?_, ?_, ?_⟩
  · by_cases hz : a + b + c + d + e + f = 0
    · obtain ⟨rfl, rfl, rfl, rfl, rfl, rfl⟩ :
          a = 0 ∧ b = 0 ∧ c = 0 ∧ d = 0 ∧ e = 0 ∧ f = 0 := by
        refine ⟨?_, ?_, ?_, ?_, ?_, ?_⟩ <;> linarith
      rw [source_buckets_zero]
      rfl
    · rw [source_buckets_eval a b c d e f hz]
      rfl
  · by_cases hz : a + b + c + d + e + f = 0
    · obtain ⟨rfl, rfl, rfl, rfl, rfl, rfl⟩ :
          a = 0 ∧ b = 0 ∧ c = 0 ∧ d = 0 ∧ e = 0 ∧ f = 0 := by
        refine ⟨?_, ?_, ?_, ?_, ?_, ?_⟩ <;> linarith
      rw [source_buckets_zero]
      intro x hx
      simp only [List.map_cons, List.map_nil, List.mem_cons, List.not_mem_nil, or_false] at hx
      rcases hx with rfl | rfl | rfl | rfl <;> norm_num
    · have hS : 0 < a + b + c + d + e + f := lt_of_le_of_ne (by linarith) (Ne.symm hz)
      rw [source_buckets_eval a b c d e f hz]
      intro x hx
      simp only [List.map_cons, List.map_nil, List.mem_cons, List.not_mem_nil, or_false] at hx
      rcases hx with rfl | rfl | rfl | rfl <;>
        exact mul_nonneg (div_nonneg (by linarith) hS.le) (by norm_num)
  · intro hpos
    have hz : a + b + c + d + e + f ≠ 0 := ne_of_gt hpos
    rw [source_buckets_eval a b c d e f hz]
    simp only [List.map_cons, List.map_nil, List.sum_cons, List.sum_nil]
    field_simp
    ring
  · rintro ⟨rfl, rfl, rfl, rfl, rfl, rfl⟩
    rw [source_buckets_zero]
    rfl

/-- Claim C3, witness at the all-ones importance vector. -/
theorem c3_attribution_invariants_witness :
    (source_buckets [1, 1, 1, 1, 1, 1]).length = 4 ∧
    (∀ x ∈ (source_buckets [1, 1, 1, 1, 1, 1]).map Prod.snd, (0 : ℚ) ≤ x) ∧
    ((0 : ℚ) < 1 + 1 + 1 + 1 + 1 + 1 →
      ((source_buckets [1, 1, 1, 1, 1, 1]).map Prod.snd).sum = 100) ∧
    (((1 : ℚ) = 0 ∧ (1 : ℚ) = 0 ∧ (1 : ℚ) = 0 ∧ (1 : ℚ) = 0 ∧ (1 : ℚ) = 0 ∧ (1 : ℚ) = 0) →
      (source_buckets [1, 1, 1, 1, 1, 1]).map Prod.snd = [0, 0, 0, 0]) :=
  c3_attribution_invariants 1 1 1 1 1 1 (by norm_num) (by norm_num) (by norm_num)
    (by norm_num) (by norm_num) (by norm_num)

/-- Claim C5: each bucket is the fixed linear combination Traffic = NO2+CO,
DustStubble = PM2.5+PM10, Industry = SO2, Photochemical = O3, divided by the
total of the four raw sums and scaled to a percentage. -/
theorem c5_attribution_formula (a b c d e f : ℚ) (h : a + b + c + d + e + f ≠ 0) :
    source_buckets [a, b, c, d, e, f] =
      [("Traffic (NO₂ + CO)", (c + e) / (a + b + c + d + e + f) * 100),
       ("Dust & Stubble (PM2.5 + PM10)", (a + b) / (a + b + c + d + e + f) * 100),
       ("Industry (SO₂)", d / (a + b + c + d + e + f) * 100),
       ("Photochemical (O₃)", f / (a + b + c + d + e + f) * 100)] :=
  source_buckets_eval a b c d e f h

/-- Claim C5, witness at the spec's worked example
{PM2.5:10, PM10:10, NO2:5, SO2:5, CO:5, O3:5}: Traffic 25%, Dust & Stubble
50%, Industry 12.5%, Photochemical 12.5%. -/
theorem c5_attribution_formula_witness :
    source_buckets [10, 10, 5, 5, 5, 5] =
      [("Traffic (NO₂ + CO)", 25),
       ("Dust & Stubble (PM2.5 + PM10)", 50),
       ("Industry (SO₂)", 25 / 2),
       ("Photochemical (O₃)", 25 / 2)] := by
  have h := c5_attribution_formula 10 10 5 5 5 5 (by norm_num)
  rw [h]
  norm_num

/-- Claim C4: with non-negative bucket percentages summing to 100, levers in
[0, 60] and a non-negative baseline, the projected index is
`baseline * (1 - eff)` with `eff` in [0, 3/5], so it lies between
`2/5 * baseline` and `baseline`; with all levers at 60 it is exactly
`2/5 * baseline`. -/
theorem c4_simulator_bounds (wT wD wI wP t d i p baseline : ℚ)
    (hT : 0 ≤ wT) (hD : 0 ≤ wD) (hI : 0 ≤ wI) (hP : 0 ≤ wP)
    (hsum : wT + wD + wI + wP = 100)
    (ht0 : 0 ≤ t) (ht1 : t ≤ 60) (hd0 : 0 ≤ d) (hd1 : d ≤ 60)
    (hi0 : 0 ≤ i) (hi1 : i ≤ 60) (hp0 : 0 ≤ p) (hp1 : p ≤ 60)
    (hb : 0 ≤ baseline) :
    policy_improved (bucketList wT wD wI wP) t d i p (some baseline) =
        baseline * (1 - policy_eff (bucketList wT wD wI wP) t d i p) ∧
    0 ≤ policy_eff (bucketList wT wD wI wP) t d i p ∧
    policy_eff (bucketList wT wD wI wP) t d i p ≤ 3 / 5 ∧
    2 / 5 * baseline ≤ policy_improved (bucketList wT wD wI wP) t d i p (some baseline) ∧
    policy_improved (bucketList wT wD wI wP) t d i p (some baseline) ≤ baseline ∧
    policy_improved (bucketList wT wD wI wP) 60 60 60 60 (some baseline) =
        2 / 5 * baseline := by
  have heff := policy_eff_bucketList wT wD wI wP t d i p
  have he0 : 0 ≤ policy_eff (bucketList wT wD wI wP) t d i p := by
    rw [heff]
    have q1 : 0 ≤ wT / 100 * (t / 100) := by positivity
    have q2 : 0 ≤ wD / 100 * (d / 100) := by positivity
    have q3 : 0 ≤ wI / 100 * (i / 100) := by positivity
    have q4 : 0 ≤ wP / 100 * (p / 100) := by positivity
    linarith
  have he1 : policy_eff (bucketList wT wD wI wP) t d i p ≤ 3 / 5 := by
    rw [heff]
    have q1 : wT * t ≤ wT * 60 := mul_le_mul_of_nonneg_left ht1 hT
    have q2 : wD * d ≤ wD * 60 := mul_le_mul_of_nonneg_left hd1 hD
    have q3 : wI * i ≤ wI * 60 := mul_le_mul_of_nonneg_left hi1 hI
    have q4 : wP * p ≤ wP * 60 := mul_le_mul_of_nonneg_left hp1 hP
    nlinarith [q1, q2, q3, q4]
  refine ⟨rfl, he0, he1, ?_, ?_, ?_⟩
  · show 2 / 5 * baseline ≤ baseline * (1 - policy_eff (bucketList wT wD wI wP) t d i p)
    nlinarith [mul_le_mul_of_nonneg_left he1 hb]
  · show baseline * (1 - policy_eff (bucketList wT wD wI wP) t d i p) ≤ baseline
    nlinarith [mul_nonneg hb he0]
  · show baseline * (1 - policy_eff (bucketList wT wD wI wP) 60 60 60 60) = 2 / 5 * baseline
    have h60 : policy_eff (bucketList wT wD wI wP) 60 60 60 60 = 3 / 5 := by
      rw [policy_eff_bucketList]
      linear_combination (3 / 500) * hsum
    rw [h60]
    ring

/-- Claim C4, witness at bucket percentages 25/50/12.5/12.5, levers
20/15/10/5 and baseline 200. -/
theorem c4_simulator_bounds_witness :
    policy_improved (bucketList 25 50 (25 / 2) (25 / 2)) 20 15 10 5 (some 200) =
        200 * (1 - policy_eff (bucketList 25 50 (25 / 2) (25 / 2)) 20 15 10 5) ∧
    (0 : ℚ) ≤ policy_eff (bucketList 25 50 (25 / 2) (25 / 2)) 20 15 10 5 ∧
    policy_eff (bucketList 25 50 (25 / 2) (25 / 2)) 20 15 10 5 ≤ 3 / 5 ∧
    (2 : ℚ) / 5 * 200 ≤ policy_improved (bucketList 25 50 (25 / 2) (25 / 2)) 20 15 10 5 (some 200) ∧
    policy_improved (bucketList 25 50 (25 / 2) (25 / 2)) 20 15 10 5 (some 200) ≤ 200 ∧
    policy_improved (bucketList 25 50 (25 / 2) (25 / 2)) 60 60 60 60 (some 200) =
        2 / 5 * 200 :=
  c4_simulator_bounds 25 50 (25 / 2) (25 / 2) 20 15 10 5 200
    (by norm_num) (by norm_num) (by norm_num) (by norm_num) (by norm_num)
    (by norm_num) (by norm_num) (by norm_num) (by norm_num) (by norm_num)
    (by norm_num) (by norm_num) (by norm_num) (by norm_num)

/-- Claim C7 fails as stated: at index 0 the status string is the tier label
with its emoji, "Good 🌱", not the bare string "Good". -/
theorem c7_counterexample_status_literal :
    ¬ ((health_advisory 0).1 = "Good") := by
  decide

/-- Claim C7 as amended: for every index at most 50 the status is the
Good-tier label "Good 🌱" (negative values included), and for every index
above 400 it is the Severe-tier label "Severe ☠️". -/
theorem c7_amended_tier_labels (aqi : ℚ) :
    (aqi ≤ 50 → (health_advisory aqi).1 = "Good 🌱") ∧
    (400 < aqi → (health_advisory aqi).1 = "Severe ☠️") := by
  constructor
  · intro h
    unfold health_advisory
    rw [if_pos h]
  · intro h
    unfold health_advisory
    rw [if_neg (not_le.mpr (by linarith)), if_neg (not_le.mpr (by linarith)),
      if_neg (not_le.mpr (by linarith)), if_neg (not_le.mpr (by linarith)),
      if_neg (not_le.mpr (by linarith))]

/-- Claim C7, witness at indices 10 and 500 of the amended statement. -/
theorem c7_amended_tier_labels_witness :
    (health_advisory 10).1 = "Good 🌱" ∧ (health_advisory 500).1 = "Severe ☠️" :=
  ⟨(c7_amended_tier_labels 10).1 (by norm_num),
   (c7_amended_tier_labels 500).2 (by norm_num)⟩

end AirVision
